import Mathlib

/-!
Shallow embedding of `nou::Optional<T>` from NostraUtils
(`src/include/nostrautils/optional.hpp`).

`Optional<T>` privately inherits `internal::OptionalStorage<T, ...>`, whose
state is a raw storage cell (a union of `Type m_data` and an empty dummy) plus
a validity flag `m_isValid`.  We model the contained C++ type `T` by `CVal`:
an observable value together with a moved-from flag, mirroring the moved-from
husk the spec talks about.  Every lifetime-relevant operation additionally
returns the list of `T`-constructor/destructor invocations it performs, in
order, so that claims about "exactly one destructor call", "no constructor of
T is invoked", copy- versus move-construction, etc. are statements about the
returned trace.

C++ overload resolution picks `T`'s copy constructor for lvalue arguments and
its move constructor for rvalue arguments; the embedding makes the value
category explicit in the `Arg` type, because the difference between
`set(other.get())` (lvalue, copies) and `set(nou::move(other.get()))`
(rvalue, moves) is exactly what some claims turn on.
-/

namespace Nou

/-- Model of one instance of the wrapped C++ type `T`: an observable value
plus a flag recording whether the instance has been moved from. -/
structure CVal where
  val : Nat
  movedFrom : Bool
deriving DecidableEq, Repr

/-- `T(args...)`: construction from forwarded non-`T` arguments (modelled by a
single `Nat`), as in the test types' `Test1(nou::uint32 value)`. -/
def CVal.fromArgs (n : Nat) : CVal :=
  { val := n, movedFrom := false }

/-- `T(const T &other)`: the copy constructor copies the representation and
leaves the source untouched. -/
def CVal.copyFrom (c : CVal) : CVal :=
  { val := c.val, movedFrom := c.movedFrom }

/-- `T(T &&other)`: the result of move-construction holds the source's value
and is itself freshly constructed (not moved-from). -/
def CVal.moveResult (c : CVal) : CVal :=
  { val := c.val, movedFrom := false }

/-- The state the source of a move-construction is left in: a moved-from
husk. -/
def CVal.asMovedFrom (c : CVal) : CVal :=
  { val := c.val, movedFrom := true }

/-- One `T`-lifetime event: which constructor of `T` ran (and from what), or
that `T`'s destructor ran on a live instance. -/
inductive Event where
  | ctorArgs (n : Nat)
  | ctorCopy (src : CVal)
  | ctorMove (src : CVal)
  | dtor (c : CVal)
deriving DecidableEq, Repr

/-- An argument list forwarded to `T`'s constructor, with its value category:
`raw` forwards plain arguments, `lref` is an lvalue reference to a live `T`
(selects the copy constructor), `rref` is an rvalue reference (selects the
move constructor). -/
inductive Arg where
  | raw (n : Nat)
  | lref (c : CVal)
  | rref (c : CVal)
deriving DecidableEq, Repr

/-- `new (cell) Type(forward<ARGS>(args)...)`: the constructed value and the
constructor invocation it performs. -/
def constructT : Arg → CVal × Event
  | .raw n => (CVal.fromArgs n, .ctorArgs n)
  | .lref c => (CVal.copyFrom c, .ctorCopy c)
  | .rref c => (CVal.moveResult c, .ctorMove c)

/-- State of `internal::OptionalStorage<T, ...>` (and hence of
`nou::Optional<T>`, which has no further state): the storage cell and the
validity flag.  When `m_isValid` is `false` the cell holds dead bytes; the
code never reads it then, and neither does any theorem below. -/
structure OptionalStorage where
  m_data : CVal
  m_isValid : Bool
deriving DecidableEq, Repr

/-- The dead-cell contents of a storage whose union member is `m_dummy`. -/
def junkCell : CVal :=
  { val := 0, movedFrom := false }

/-- `OptionalStorage()` (optional.hpp:834-838, 874-876): dummy-initialized
cell, `m_isValid = false`.  No constructor of `T` runs. -/
def OptionalStorage.mkDefault : OptionalStorage :=
  { m_data := junkCell, m_isValid := false }

/-- `OptionalStorage(ARGS &&... args)` (optional.hpp:840-846, 878-884):
`m_data(forward<ARGS>(args)...)`, `m_isValid(true)`. -/
def OptionalStorage.mkValue (a : Arg) : OptionalStorage × List Event :=
  ({ m_data := (constructT a).1, m_isValid := true }, [(constructT a).2])

/-- `OptionalStorage(const Optional<OT> &other)` (optional.hpp:848-854,
886-892), delegating to the `DummyValid` constructor (`m_data(other.get())`,
a copy) when `other.isValid()` and to the `DummyInvalid` constructor
(`m_dummy()`, invalid) otherwise. -/
def OptionalStorage.mkCopy (other : OptionalStorage) : OptionalStorage × List Event :=
  if other.m_isValid then
    ({ m_data := CVal.copyFrom other.m_data, m_isValid := true },
      [Event.ctorCopy other.m_data])
  else
    (OptionalStorage.mkDefault, [])

/-- `OptionalStorage<T, false>::destroy` (optional.hpp:894-899):
`if (m_isValid) m_data.~Type();`.  Neither field is written. -/
def OptionalStorage.destroy (s : OptionalStorage) : OptionalStorage × List Event :=
  if s.m_isValid then (s, [Event.dtor s.m_data]) else (s, [])

/-- The empty-tag type `internal::InvalidOpt` (optional.hpp:74-80). -/
structure InvalidOpt where

/-- `internal::INVALID_OPT_INSTANCE` (optional.hpp:82). -/
def INVALID_OPT_INSTANCE : InvalidOpt :=
  {}

/-- `nou::invalidOpt()` (optional.hpp:1049-1052). -/
def invalidOpt : InvalidOpt :=
  INVALID_OPT_INSTANCE

namespace Optional

/-- `Optional<T>::isValid()` (optional.hpp:803-807): `return Base::m_isValid;`. -/
def isValid (s : OptionalStorage) : Bool :=
  s.m_isValid

/-- `Optional<T>::get()` (optional.hpp:809-813, 949-953):
`return Base::m_data;`. -/
def get (s : OptionalStorage) : CVal :=
  s.m_data

/-- `Optional<T>::Optional()` (optional.hpp:907-909): `Base()`. -/
def mkDefault : OptionalStorage × List Event :=
  (OptionalStorage.mkDefault, [])

/-- `Optional<T>::Optional(ARGS &&... args)` (optional.hpp:911-915):
`Base(forward<ARGS>(args)...)`. -/
def mkValue (a : Arg) : OptionalStorage × List Event :=
  OptionalStorage.mkValue a

/-- `Optional<T>::Optional(const Optional<OT> &)` and the same-type copy
constructor (optional.hpp:917-921, 936-939): `Base(other)`. -/
def mkCopy (other : OptionalStorage) : OptionalStorage × List Event :=
  OptionalStorage.mkCopy other

/-- `Optional<T>::Optional(const internal::InvalidOpt &)`
(optional.hpp:932-934): `Base()`; the tag parameter is unused. -/
def mkInvalidOpt (_i : InvalidOpt) : OptionalStorage × List Event :=
  (OptionalStorage.mkDefault, [])

/-- `Optional<T>::set(ARGS &&... args)` (optional.hpp:991-1000):
`Base::destroy(); new (&get()) Type(forward<ARGS>(args)...);
Base::m_isValid = true;`. -/
def set (s : OptionalStorage) (a : Arg) : OptionalStorage × List Event :=
  ({ m_data := (constructT a).1, m_isValid := true },
    (s.destroy).2 ++ [(constructT a).2])

/-- `Optional<T>::Optional(Optional<OT> &&other)` and the same-type move
constructor (optional.hpp:923-930, 941-947).  The base subobject is
default-initialized (invalid); then `if (other.isValid()) set(other.get());`.
Inside the body `other` is an lvalue, and `other.get()` yields an lvalue
reference `OT &`, so the constructor of `T` that `set` invokes is the copy
constructor — no `nou::move` appears in the body.  `other` is never written.
Returns (constructed optional, `other` afterwards, `T`-lifetime events). -/
def mkMove (other : OptionalStorage) : OptionalStorage × OptionalStorage × List Event :=
  if isValid other then
    ((set OptionalStorage.mkDefault (Arg.lref (get other))).1, other,
      (set OptionalStorage.mkDefault (Arg.lref (get other))).2)
  else
    (OptionalStorage.mkDefault, other, [])

/-- Which reference a reference-returning member function hands back: one
into the optional's own storage cell, or the very reference the caller
passed as fallback. -/
inductive RefTarget where
  | contained
  | fallback
deriving DecidableEq, Repr

/-- `Optional<T>::getOr(Type &obj)` (optional.hpp:955-965):
`return isValid() ? get() : obj;`.  Returns which object the reference
refers to, together with that object's value. -/
def getOr (s : OptionalStorage) (fb : CVal) : RefTarget × CVal :=
  if isValid s then (RefTarget.contained, get s) else (RefTarget.fallback, fb)

/-- `Optional<T>::ptr()` (optional.hpp:979-989):
`return isValid() ? &get() : nullptr;`.  `none` models `nullptr`, `some v` a
pointer to the cell currently holding `v`. -/
def ptr (s : OptionalStorage) : Option CVal :=
  if isValid s then some (get s) else none

/-- `Optional<T>::move()` (optional.hpp:967-971):
`return ::nou::move(get());`.  The return object is move-constructed from
the contained `T`, which becomes a moved-from husk; neither `m_isValid` nor
anything else of the container is written.  Returns (returned value,
container afterwards, `T`-lifetime events). -/
def move (s : OptionalStorage) : CVal × OptionalStorage × List Event :=
  (CVal.moveResult (get s),
    { s with m_data := CVal.asMovedFrom s.m_data },
    [Event.ctorMove (get s)])

/-- `Optional<T>::reset()` (optional.hpp:1008-1013):
`Base::destroy(); Base::m_isValid = false;`. -/
def reset (s : OptionalStorage) : OptionalStorage × List Event :=
  ({ (s.destroy).1 with m_isValid := false }, (s.destroy).2)

/-- `Optional<T>::set(const internal::InvalidOpt &)` (optional.hpp:1002-1006):
`reset();`. -/
def setInvalidOpt (s : OptionalStorage) (_i : InvalidOpt) : OptionalStorage × List Event :=
  reset s

/-- The non-const `Optional<T>::operator->()` (optional.hpp:1027-1031):
`return ptr();`.  (The const overload at optional.hpp:1033-1037 is
`return ptr;` — it names the member function without calling it and is
ill-formed when instantiated; see the corresponding claim.) -/
def operatorArrow (s : OptionalStorage) : Option CVal :=
  ptr s

/-- `Optional<T>::operator=(ARGS &&... args)` (optional.hpp:1039-1047):
`set(forward<ARGS>(args)...); return *this;` with return type
`Optional<T>` by value, so the returned optional is copy-constructed from
`*this` via `Optional(const Optional &)`, i.e. `Base(other)`.
Returns (`*this` afterwards, the returned optional, `T`-lifetime events). -/
def operatorAssign (s : OptionalStorage) (a : Arg) :
    OptionalStorage × OptionalStorage × List Event :=
  ((set s a).1, (mkCopy (set s a).1).1,
    (set s a).2 ++ (mkCopy (set s a).1).2)

end Optional

end Nou

namespace Nou

/-- Claim C1. The claim states that move-constructing an `Optional<T>` from a
valid source constructs the new contained `T` by moving the source's
contained value, leaving it in a moved-from state.  On the code this is
false: the move constructor's body is `if (other.isValid()) set(other.get());`
where `other.get()` is an lvalue, so `T`'s copy constructor runs and the
source's contained value is left untouched.  Evaluated at a concrete valid
source holding `T(5)`: the only `T`-constructor event is a copy construction,
the source's contained value is not moved-from (and the source is entirely
unchanged), while the new optional does hold a copy of `T(5)`. -/
theorem moveCtor_performs_copy_not_move :
    (Optional.mkMove { m_data := CVal.fromArgs 5, m_isValid := true }).2.2
        = [Event.ctorCopy (CVal.fromArgs 5)] ∧
    (Optional.mkMove { m_data := CVal.fromArgs 5, m_isValid := true }).2.1
        = { m_data := CVal.fromArgs 5, m_isValid := true } ∧
    (Optional.mkMove { m_data := CVal.fromArgs 5, m_isValid := true }).2.1.m_data.movedFrom
        = false ∧
    (Optional.mkMove { m_data := CVal.fromArgs 5, m_isValid := true }).1
        = { m_data := CVal.fromArgs 5, m_isValid := true } := by
  decide

/-- Claim C2. Moving never invalidates the source container: for every valid
optional, after move-constructing another optional from it the source's
`isValid()` is still `true`, and after calling `move()` on it the container's
own `isValid()` is still `true`. -/
theorem move_preserves_source_validity (s : OptionalStorage)
    (h : Optional.isValid s = true) :
    Optional.isValid (Optional.mkMove s).2.1 = true ∧
    Optional.isValid (Optional.move s).2.1 = true := by
  refine ⟨?_, ?_⟩
  · unfold Optional.mkMove
    split <;> exact h
  · simpa [Optional.move, Optional.isValid] using h

/-- Witness for claim C2 at the concrete valid optional holding `T(7)`. -/
theorem move_preserves_source_validity_witness :
    Optional.isValid
        (Optional.mkMove { m_data := CVal.fromArgs 7, m_isValid := true }).2.1 = true ∧
    Optional.isValid
        (Optional.move { m_data := CVal.fromArgs 7, m_isValid := true }).2.1 = true :=
  move_preserves_source_validity { m_data := CVal.fromArgs 7, m_isValid := true } (by decide)

/-- Claim C3. After `set(a)` then `set(b)`, the `T`-lifetime events of the
second call are exactly one destruction of the `T` constructed from `a`
followed by the construction of the `T` from `b` (so the destruction happens
exactly once and before the new construction), and afterwards the optional
is valid with contained value `T(b)`. -/
theorem set_then_set_replaces (s : OptionalStorage) (a b : Nat) :
    (Optional.set (Optional.set s (Arg.raw a)).1 (Arg.raw b)).2
        = [Event.dtor (CVal.fromArgs a), Event.ctorArgs b] ∧
    Optional.isValid (Optional.set (Optional.set s (Arg.raw a)).1 (Arg.raw b)).1 = true ∧
    Optional.get (Optional.set (Optional.set s (Arg.raw a)).1 (Arg.raw b)).1
        = CVal.fromArgs b := by
  simp [Optional.set, OptionalStorage.destroy, constructT, Optional.isValid, Optional.get]

/-- Claim C4. For every argument list from which `T` is constructible, the
value-forwarding construction produces a valid optional whose `get()` is the
value `T(args...)`, with exactly that one constructor invocation. -/
theorem value_construct_roundtrip (a : Arg) :
    Optional.isValid (Optional.mkValue a).1 = true ∧
    Optional.get (Optional.mkValue a).1 = (constructT a).1 ∧
    (Optional.mkValue a).2 = [(constructT a).2] := by
  simp [Optional.mkValue, OptionalStorage.mkValue, Optional.isValid, Optional.get]

/-- Claim C5. A default-constructed optional has `isValid() == false` and its
construction performs no constructor call of `T` (the event trace is empty);
the same holds when constructing from the empty tag returned by
`invalidOpt()`. -/
theorem default_and_invalidOpt_construct_empty :
    Optional.isValid Optional.mkDefault.1 = false ∧
    Optional.mkDefault.2 = [] ∧
    Optional.isValid (Optional.mkInvalidOpt invalidOpt).1 = false ∧
    (Optional.mkInvalidOpt invalidOpt).2 = [] := by
  decide

/-- Claim C6. `reset()` is idempotent: on an already-empty optional it is a
no-op (the state is unchanged and no destructor of `T` runs); after a
`set(...)`, two consecutive `reset()` calls destroy the contained value
exactly once — the first emits exactly one destructor event and leaves the
optional empty, the second emits none. -/
theorem reset_idempotent :
    (∀ s : OptionalStorage, Optional.isValid s = false →
        (Optional.reset s).1 = s ∧ (Optional.reset s).2 = []) ∧
    (∀ (s : OptionalStorage) (a : Arg),
        (Optional.reset (Optional.set s a).1).2 = [Event.dtor (constructT a).1] ∧
        Optional.isValid (Optional.reset (Optional.set s a).1).1 = false ∧
        (Optional.reset (Optional.reset (Optional.set s a).1).1).2 = []) := by
  constructor
  · intro s h
    cases s with
    | mk d v =>
      simp [Optional.isValid] at h
      subst h
      simp [Optional.reset, OptionalStorage.destroy]
  · intro s a
    simp [Optional.reset, Optional.set, OptionalStorage.destroy, Optional.isValid]

/-- Witness for claim C6: the empty branch at a default-constructed optional
and the set-then-reset-twice branch at argument `3`. -/
theorem reset_idempotent_witness :
    ((Optional.reset OptionalStorage.mkDefault).1 = OptionalStorage.mkDefault ∧
      (Optional.reset OptionalStorage.mkDefault).2 = []) ∧
    ((Optional.reset (Optional.set OptionalStorage.mkDefault (Arg.raw 3)).1).2
        = [Event.dtor (constructT (Arg.raw 3)).1] ∧
      Optional.isValid
        (Optional.reset (Optional.set OptionalStorage.mkDefault (Arg.raw 3)).1).1 = false ∧
      (Optional.reset
        (Optional.reset (Optional.set OptionalStorage.mkDefault (Arg.raw 3)).1).1).2 = []) :=
  ⟨reset_idempotent.1 OptionalStorage.mkDefault (by decide),
    reset_idempotent.2 OptionalStorage.mkDefault (Arg.raw 3)⟩

/-- Claim C7. Empty propagation: constructing an optional from an empty
optional, by copy or by move, yields an invalid optional and performs no
constructor call of `T` (the event trace is empty). -/
theorem empty_propagation (s : OptionalStorage)
    (h : Optional.isValid s = false) :
    Optional.isValid (Optional.mkCopy s).1 = false ∧
    (Optional.mkCopy s).2 = [] ∧
    Optional.isValid (Optional.mkMove s).1 = false ∧
    (Optional.mkMove s).2.2 = [] := by
  simp [Optional.isValid] at h
  simp [Optional.mkCopy, OptionalStorage.mkCopy, Optional.mkMove, Optional.isValid, h,
    OptionalStorage.mkDefault]

/-- Witness for claim C7 at a concrete empty optional. -/
theorem empty_propagation_witness :
    Optional.isValid (Optional.mkCopy OptionalStorage.mkDefault).1 = false ∧
    (Optional.mkCopy OptionalStorage.mkDefault).2 = [] ∧
    Optional.isValid (Optional.mkMove OptionalStorage.mkDefault).1 = false ∧
    (Optional.mkMove OptionalStorage.mkDefault).2.2 = [] :=
  empty_propagation OptionalStorage.mkDefault (by decide)

/-- Claim C8. On an empty optional, `ptr()` returns the null pointer and
`getOr(fallback)` returns the very fallback reference the caller passed
(not a reference into the optional's storage), carrying the fallback's
value; neither accesses the absent contained value. -/
theorem getOr_ptr_empty_safe (s : OptionalStorage) (fb : CVal)
    (h : Optional.isValid s = false) :
    (Optional.getOr s fb).1 = Optional.RefTarget.fallback ∧
    (Optional.getOr s fb).2 = fb ∧
    Optional.ptr s = none := by
  simp [Optional.getOr, Optional.ptr, h]

/-- Witness for claim C8: an empty optional and the fallback `T(9)` from the
spec's scenario. -/
theorem getOr_ptr_empty_safe_witness :
    (Optional.getOr OptionalStorage.mkDefault (CVal.fromArgs 9)).1
        = Optional.RefTarget.fallback ∧
    (Optional.getOr OptionalStorage.mkDefault (CVal.fromArgs 9)).2 = CVal.fromArgs 9 ∧
    Optional.ptr OptionalStorage.mkDefault = none :=
  getOr_ptr_empty_safe OptionalStorage.mkDefault (CVal.fromArgs 9) (by decide)

/-- Claim C9. The documented contract of `operator->` is that of `ptr()`:
the non-const overload, whose body is `return ptr();`, satisfies it for
every state.  The const overload's body is `return ptr;` — it names the
member function without calling it, which is ill-formed when instantiated,
so the code fails the claim for const optionals (a slip contradicting its
own `\copydoc ptr() const` documentation). -/
theorem operatorArrow_matches_ptr (s : OptionalStorage) :
    Optional.operatorArrow s = Optional.ptr s :=
  rfl

/-- Claim C10. `operator=(args...)` leaves `*this` in exactly the state
`set(args...)` produces — valid, holding `T(args...)` — and its return value
is a fresh `Optional<T>` copy-constructed from `*this` and returned by
value (the trace ends with the copy construction of the returned optional's
contained `T`), not a reference to `*this`. -/
theorem operatorAssign_sets_and_returns_copy (s : OptionalStorage) (a : Arg) :
    (Optional.operatorAssign s a).1 = (Optional.set s a).1 ∧
    Optional.isValid (Optional.operatorAssign s a).1 = true ∧
    Optional.get (Optional.operatorAssign s a).1 = (constructT a).1 ∧
    (Optional.operatorAssign s a).2.1 = (Optional.mkCopy (Optional.set s a).1).1 ∧
    (Optional.operatorAssign s a).2.2
        = (Optional.set s a).2 ++ [Event.ctorCopy (constructT a).1] := by
  simp [Optional.operatorAssign, Optional.set, Optional.mkCopy, OptionalStorage.mkCopy,
    Optional.isValid, Optional.get]

end Nou
